import Mathlib

/- Shallow embedding of the splito_backend authentication service:
   src/server.js (inline route handlers, user schema, JWT config),
   src/controllers/auth.controller.js (controller handlers),
   src/routes/auth.route.js (router mounting the controller).
   Machine-level details (HTTP transport, MongoDB, bcrypt salts, JWS base64)
   are modelled by executable pure functions that preserve the observable
   behaviour the specification talks about. -/

namespace Splito

/-- JS `toLowerCase()` on a single ASCII character. -/
def toLowerChar (c : Char) : Char :=
  if 'A' ≤ c ∧ c ≤ 'Z' then Char.ofNat (c.toNat + 32) else c

/-- Whitespace characters removed by JS `trim()` (ASCII subset). -/
def isSpaceChar (c : Char) : Bool :=
  c == ' ' || c == '\t' || c == '\n' || c == '\r'

/-- JS `trim()` on a list of characters: drop whitespace at both ends. -/
def trimChars (l : List Char) : List Char :=
  ((l.dropWhile isSpaceChar).reverse.dropWhile isSpaceChar).reverse

/-- `email.toLowerCase().trim()` as written in src/server.js lines 105, 120, 181
    and src/controllers/auth.controller.js lines 45, 91. -/
def normalizeEmail (e : String) : String :=
  String.mk (trimChars (e.data.map toLowerChar))

/- ===== Token wire codec =====
   Real tokens are JWS strings over a base64url alphabet (no spaces).  The model
   serializes the payload and the signing secret into a character string over
   digits, the comma and the dot, which shares the properties the spec relies
   on: injective encoding, no whitespace, verification recovers the claims and
   checks the signature against the verifier's secret. -/

/-- Little-endian base-10 digits of a natural number, fuel-based so that it is
    structurally recursive. -/
def natToDigitsAux : Nat → Nat → List Nat
  | 0, _ => []
  | fuel + 1, n => if n = 0 then [] else n % 10 :: natToDigitsAux fuel (n / 10)

def natDigits (n : Nat) : List Nat := natToDigitsAux n n

def digitsToNat : List Nat → Nat
  | [] => 0
  | d :: ds => d + 10 * digitsToNat ds

def digitChar (d : Nat) : Char := Char.ofNat (48 + d)

def charDigit (c : Char) : Nat := c.toNat - 48

/-- Encode a natural number as digit characters. -/
def encNat (n : Nat) : List Char := (natDigits n).map digitChar

def decNat (l : List Char) : Nat := digitsToNat (l.map charDigit)

/-- Escape a character list into digit groups, each terminated by a comma. -/
def encStr : List Char → List Char
  | [] => []
  | c :: cs => encNat c.toNat ++ ',' :: encStr cs

def decStrAux : Nat → List Char → List Char
  | 0, _ => []
  | fuel + 1, l =>
    if l.isEmpty then []
    else
      Char.ofNat (decNat (l.takeWhile (fun x => x != ','))) ::
        decStrAux fuel ((l.dropWhile (fun x => x != ',')).drop 1)

def decStr (l : List Char) : List Char := decStrAux l.length l

theorem digitsToNat_natToDigitsAux :
    ∀ fuel n, n ≤ fuel → digitsToNat (natToDigitsAux fuel n) = n := by
  intro fuel
  induction fuel with
  | zero =>
    intro n h
    interval_cases n
    rfl
  | succ f ih =>
    intro n h
    by_cases hn : n = 0
    · subst hn
      simp [natToDigitsAux, digitsToNat]
    · have hdiv : n / 10 ≤ f := by
        have : n / 10 < n := Nat.div_lt_self (Nat.pos_of_ne_zero hn) (by omega)
        omega
      simp only [natToDigitsAux, if_neg hn, digitsToNat, ih _ hdiv]
      omega

theorem mem_natToDigitsAux_lt :
    ∀ fuel n d, d ∈ natToDigitsAux fuel n → d < 10 := by
  intro fuel
  induction fuel with
  | zero =>
    intro n d h
    simp [natToDigitsAux] at h
  | succ f ih =>
    intro n d h
    by_cases hn : n = 0
    · subst hn
      simp [natToDigitsAux] at h
    · simp only [natToDigitsAux, if_neg hn, List.mem_cons] at h
      rcases h with h | h
      · subst h
        exact Nat.mod_lt _ (by omega)
      · exact ih _ _ h

theorem toNat_digitChar (d : Nat) (h : d < 10) : (digitChar d).toNat = 48 + d := by
  interval_cases d <;> decide

theorem charDigit_digitChar (d : Nat) (h : d < 10) : charDigit (digitChar d) = d := by
  simp [charDigit, toNat_digitChar d h]

theorem decNat_encNat (n : Nat) : decNat (encNat n) = n := by
  simp only [decNat, encNat, List.map_map]
  have h1 : List.map (charDigit ∘ digitChar) (natDigits n) = List.map id (natDigits n) :=
    List.map_congr_left (fun d hd => charDigit_digitChar d (mem_natToDigitsAux_lt n n d hd))
  rw [h1, List.map_id]
  exact digitsToNat_natToDigitsAux n n (Nat.le_refl n)

theorem mem_encNat_range (n : Nat) : ∀ x ∈ encNat n, 48 ≤ x.toNat ∧ x.toNat ≤ 57 := by
  intro x hx
  simp only [encNat, List.mem_map] at hx
  obtain ⟨d, hd, rfl⟩ := hx
  have hlt := mem_natToDigitsAux_lt n n d hd
  rw [toNat_digitChar d hlt]
  omega

theorem mem_encNat_ne_comma (n : Nat) : ∀ x ∈ encNat n, (x != ',') = true := by
  intro x hx
  obtain ⟨h1, h2⟩ := mem_encNat_range n x hx
  simp only [bne_iff_ne, ne_eq]
  intro heq
  subst heq
  have h44 : (',').toNat = 44 := rfl
  omega

theorem takeWhile_group :
    ∀ (a b : List Char), (∀ c ∈ a, (c != ',') = true) →
      (a ++ ',' :: b).takeWhile (fun x => x != ',') = a := by
  intro a
  induction a with
  | nil =>
    intro b _
    simp [List.takeWhile_cons]
  | cons x xs ih =>
    intro b h
    have hx : (x != ',') = true := h x (List.mem_cons_self x xs)
    simp only [List.cons_append, List.takeWhile_cons, hx, if_true]
    rw [ih b (fun c hc => h c (List.mem_cons_of_mem x hc))]

theorem dropWhile_group :
    ∀ (a b : List Char), (∀ c ∈ a, (c != ',') = true) →
      (a ++ ',' :: b).dropWhile (fun x => x != ',') = ',' :: b := by
  intro a
  induction a with
  | nil =>
    intro b _
    simp [List.dropWhile_cons]
  | cons x xs ih =>
    intro b h
    have hx : (x != ',') = true := h x (List.mem_cons_self x xs)
    simp only [List.cons_append, List.dropWhile_cons, hx, if_true]
    exact ih b (fun c hc => h c (List.mem_cons_of_mem x hc))

theorem decStrAux_encStr :
    ∀ fuel s, (encStr s).length ≤ fuel → decStrAux fuel (encStr s) = s := by
  intro fuel
  induction fuel with
  | zero =>
    intro s h
    cases s with
    | nil => rfl
    | cons c cs =>
      exfalso
      simp only [encStr, List.length_append, List.length_cons] at h
      omega
  | succ f ih =>
    intro s h
    cases s with
    | nil => rfl
    | cons c cs =>
      have hne : (encStr (c :: cs)).isEmpty = false := by
        simp only [encStr]
        cases encNat c.toNat <;> rfl
      simp only [encStr] at hne ⊢
      rw [decStrAux, hne]
      simp only [Bool.false_eq_true, if_false]
      rw [takeWhile_group _ _ (mem_encNat_ne_comma c.toNat),
        dropWhile_group _ _ (mem_encNat_ne_comma c.toNat)]
      simp only [List.drop_succ_cons, List.drop_zero]
      rw [decNat_encNat, Char.ofNat_toNat]
      have hlen : (encStr cs).length ≤ f := by
        simp only [encStr, List.length_append, List.length_cons] at h
        omega
      rw [ih cs hlen]

theorem decStr_encStr (s : List Char) : decStr (encStr s) = s :=
  decStrAux_encStr (encStr s).length s (Nat.le_refl _)

/-- Split a character list at every dot. -/
def splitDot : List Char → List (List Char)
  | [] => [[]]
  | c :: cs =>
    if c = '.' then [] :: splitDot cs
    else
      match splitDot cs with
      | [] => [[c]]
      | g :: gs => (c :: g) :: gs

theorem splitDot_no_dot :
    ∀ l : List Char, (∀ c ∈ l, c ≠ '.') → splitDot l = [l] := by
  intro l
  induction l with
  | nil => intro _; rfl
  | cons c cs ih =>
    intro h
    have hc : c ≠ '.' := h c (List.mem_cons_self c cs)
    simp only [splitDot, if_neg hc]
    rw [ih (fun x hx => h x (List.mem_cons_of_mem c hx))]

theorem splitDot_append :
    ∀ (a b : List Char), (∀ c ∈ a, c ≠ '.') →
      splitDot (a ++ '.' :: b) = a :: splitDot b := by
  intro a
  induction a with
  | nil =>
    intro b _
    simp [splitDot]
  | cons x xs ih =>
    intro b h
    have hx : x ≠ '.' := h x (List.mem_cons_self x xs)
    simp only [List.cons_append, splitDot, if_neg hx, List.append_eq]
    rw [ih b (fun c hc => h c (List.mem_cons_of_mem x hc))]

theorem mem_encNat_ne_dot (n : Nat) : ∀ x ∈ encNat n, x ≠ '.' := by
  intro x hx heq
  obtain ⟨h1, h2⟩ := mem_encNat_range n x hx
  subst heq
  have h46 : ('.').toNat = 46 := rfl
  omega

theorem mem_encStr_ne_dot : ∀ s : List Char, ∀ x ∈ encStr s, x ≠ '.' := by
  intro s
  induction s with
  | nil =>
    intro x hx
    simp [encStr] at hx
  | cons c cs ih =>
    intro x hx
    simp only [encStr, List.mem_append, List.mem_cons] at hx
    rcases hx with hx | hx | hx
    · exact mem_encNat_ne_dot c.toNat x hx
    · subst hx
      decide
    · exact ih x hx

/-- Claims carried by a signed token: subject id, email, issuedAt, expiresAt
    (src/server.js lines 129-136; jsonwebtoken adds iat and exp = iat + expiresIn). -/
structure JwtPayload where
  id : Nat
  email : String
  iat : Nat
  exp : Nat
deriving DecidableEq

/-- Serialize payload and signature into the token wire string. -/
def tokenEncode (p : JwtPayload) (secret : String) : List Char :=
  encNat p.id ++ '.' :: (encStr p.email.data ++ '.' ::
    (encNat p.iat ++ '.' :: (encNat p.exp ++ '.' :: encStr secret.data)))

/-- Parse a token wire string back into payload and signature. -/
def tokenDecode (t : List Char) : Option (JwtPayload × List Char) :=
  match splitDot t with
  | [a, b, c, d, e] => some (⟨decNat a, String.mk (decStr b), decNat c, decNat d⟩, decStr e)
  | _ => none

theorem tokenDecode_tokenEncode (p : JwtPayload) (secret : String) :
    tokenDecode (tokenEncode p secret) = some (p, secret.data) := by
  unfold tokenDecode tokenEncode
  rw [splitDot_append _ _ (mem_encNat_ne_dot p.id),
    splitDot_append _ _ (mem_encStr_ne_dot p.email.data),
    splitDot_append _ _ (mem_encNat_ne_dot p.iat),
    splitDot_append _ _ (mem_encNat_ne_dot p.exp),
    splitDot_no_dot _ (mem_encStr_ne_dot secret.data)]
  simp only [decNat_encNat, decStr_encStr]

/-- `expiresIn: '7d'` (src/server.js line 135, src/controllers/auth.controller.js
    line 11) in seconds. -/
def sevenDaysSec : Nat := 7 * 24 * 60 * 60

/-- Model of `jwt.sign({id, email}, secret, {expiresIn: '7d'})` at clock time
    `now`: the library stamps iat = now and exp = now + 7 days. -/
def jwtSign (uid : Nat) (email : String) (secret : String) (now : Nat) : List Char :=
  tokenEncode ⟨uid, email, now, now + sevenDaysSec⟩ secret

/-- Model of `jwt.verify(token, secret)` at clock time `now`: succeeds when the
    token parses, its signature matches the verifier's secret, and the clock has
    not reached exp (jsonwebtoken expires the token once clockTimestamp >= exp). -/
def jwtVerify (t : List Char) (secret : String) (now : Nat) : Option JwtPayload :=
  match tokenDecode t with
  | some (p, sig) => if sig = secret.data ∧ now < p.exp then some p else none
  | none => none

theorem jwtVerify_ok (p : JwtPayload) (secret : String) (now : Nat) (h : now < p.exp) :
    jwtVerify (tokenEncode p secret) secret now = some p := by
  unfold jwtVerify
  rw [tokenDecode_tokenEncode]
  simp [h]

theorem jwtVerify_expired (p : JwtPayload) (secret : String) (now : Nat) (h : p.exp ≤ now) :
    jwtVerify (tokenEncode p secret) secret now = none := by
  unfold jwtVerify
  rw [tokenDecode_tokenEncode]
  have hn : ¬(secret.data = secret.data ∧ now < p.exp) := by
    rintro ⟨-, hlt⟩
    omega
  show (if secret.data = secret.data ∧ now < p.exp then some p else none) = none
  rw [if_neg hn]

theorem jwtVerify_wrong_secret (p : JwtPayload) (s s' : String) (now : Nat) (h : s ≠ s') :
    jwtVerify (tokenEncode p s) s' now = none := by
  unfold jwtVerify
  rw [tokenDecode_tokenEncode]
  have hd : s.data ≠ s'.data := fun hdd => h (congrArg String.mk hdd)
  have hn : ¬(s.data = s'.data ∧ now < p.exp) := by
    rintro ⟨he, -⟩
    exact hd he
  show (if s.data = s'.data ∧ now < p.exp then some p else none) = none
  rw [if_neg hn]

/- ===== Authorization header token extraction ===== -/

/-- Bool test that the first list is a prefix of the second. -/
def isPrefixList : List Char → List Char → Bool
  | [], _ => true
  | _ :: _, [] => false
  | p :: ps, c :: cs => p == c && isPrefixList ps cs

/-- JS `String.prototype.replace` with a string pattern and empty replacement:
    removes the first occurrence of the pattern, leaves the string unchanged
    when the pattern does not occur. -/
def replaceFirst (pat : List Char) : List Char → List Char
  | [] => []
  | c :: cs =>
    if isPrefixList pat (c :: cs) then (c :: cs).drop pat.length
    else c :: replaceFirst pat cs

/-- `req.headers.authorization?.replace('Bearer ', '')` (src/server.js line 241,
    src/controllers/auth.controller.js line 137). -/
def stripBearer (h : String) : String :=
  String.mk (replaceFirst ("Bearer ").data h.data)

theorem isPrefixList_append (p l : List Char) : isPrefixList p (p ++ l) = true := by
  induction p with
  | nil => rfl
  | cons x xs ih =>
    simp [isPrefixList, ih]

theorem mem_of_isPrefixList :
    ∀ (p l : List Char), isPrefixList p l = true → ∀ x ∈ p, x ∈ l := by
  intro p
  induction p with
  | nil =>
    intro l _ x hx
    simp at hx
  | cons y ys ih =>
    intro l hp x hx
    cases l with
    | nil => simp [isPrefixList] at hp
    | cons c cs =>
      simp only [isPrefixList, Bool.and_eq_true, beq_iff_eq] at hp
      obtain ⟨hyc, hrest⟩ := hp
      rcases List.mem_cons.mp hx with hx | hx
      · subst hx
        subst hyc
        exact List.mem_cons_self _ _
      · exact List.mem_cons_of_mem _ (ih cs hrest x hx)

theorem append_drop_of_isPrefixList :
    ∀ (p l : List Char), isPrefixList p l = true → p ++ l.drop p.length = l := by
  intro p
  induction p with
  | nil =>
    intro l _
    simp
  | cons y ys ih =>
    intro l hp
    cases l with
    | nil => simp [isPrefixList] at hp
    | cons c cs =>
      simp only [isPrefixList, Bool.and_eq_true, beq_iff_eq] at hp
      obtain ⟨hyc, hrest⟩ := hp
      subst hyc
      simp only [List.cons_append, List.length_cons, List.drop_succ_cons]
      rw [ih cs hrest]

theorem replaceFirst_append (pat t : List Char) (hp : pat ≠ []) :
    replaceFirst pat (pat ++ t) = t := by
  cases pat with
  | nil => exact absurd rfl hp
  | cons x xs =>
    have hpre := isPrefixList_append (x :: xs) t
    simp only [List.cons_append] at hpre ⊢
    rw [replaceFirst, if_pos hpre]
    exact List.drop_left (x :: xs) t

theorem replaceFirst_no_space :
    ∀ l : List Char, (∀ x ∈ l, x ≠ ' ') → replaceFirst ("Bearer ").data l = l := by
  intro l
  induction l with
  | nil => intro _; rfl
  | cons c cs ih =>
    intro h
    rw [replaceFirst]
    have hnp : isPrefixList ("Bearer ").data (c :: cs) ≠ true := by
      intro hp
      have hsp : ' ' ∈ ("Bearer ").data := by decide
      have := mem_of_isPrefixList _ _ hp ' ' hsp
      exact h ' ' this rfl
    rw [if_neg hnp]
    rw [ih (fun x hx => h x (List.mem_cons_of_mem c hx))]

theorem replaceFirst_eq_nil (pat : List Char) :
    ∀ l : List Char, replaceFirst pat l = [] → l = [] ∨ l = pat := by
  intro l
  induction l with
  | nil =>
    intro _
    exact Or.inl rfl
  | cons c cs ih =>
    intro h
    rw [replaceFirst] at h
    by_cases hpre : isPrefixList pat (c :: cs) = true
    · rw [if_pos hpre] at h
      right
      have := append_drop_of_isPrefixList pat (c :: cs) hpre
      rw [h] at this
      simp only [List.append_nil] at this
      exact this.symm
    · rw [if_neg hpre] at h
      exact absurd h (by simp)

/- ===== Password hashing, secrets, data model ===== -/

/-- Model of `bcrypt.hash(password, 10)`: a salted one-way function, embedded as
    an injective tagging so that compare can be defined; the claims only rely on
    hash/compare consistency, not on irreversibility. -/
def bcryptHash (p : String) : String :=
  String.mk ('$' :: '2' :: 'b' :: '$' :: p.data)

/-- Model of `bcrypt.compare(plaintext, storedHash)`. -/
def bcryptCompare (p h : String) : Bool :=
  h == bcryptHash p

/-- `const JWT_SECRET = 'splito-jwt-secret-key-2024'` (src/server.js line 61):
    an unconditional hardcoded constant, the environment is never consulted. -/
def server_JWT_SECRET : String := "splito-jwt-secret-key-2024"

/-- `const JWT_SECRET = process.env.JWT_SECRET || 'splito-secret-key-12345'`
    (src/controllers/auth.controller.js line 4); JS `||` falls back on the
    hardcoded default when the variable is unset or the empty string. -/
def controller_JWT_SECRET (env : Option String) : String :=
  match env with
  | none => "splito-secret-key-12345"
  | some s => if s = "" then "splito-secret-key-12345" else s

/-- `generateToken(userId, email)` (src/controllers/auth.controller.js lines 7-13). -/
def generateToken (env : Option String) (userId : Nat) (email : String) (now : Nat) :
    List Char :=
  jwtSign userId email (controller_JWT_SECRET env) now

/-- A persisted user record (userSchema, src/server.js lines 40-56): the stored
    email is normalized by the schema, password holds the bcrypt hash. -/
structure User where
  id : Nat
  email : String
  password : String
  createdAt : Nat
deriving DecidableEq

/-- Credential store state: the user collection plus an id allocator standing in
    for MongoDB ObjectId generation. -/
structure St where
  users : List User
  nextId : Nat
deriving DecidableEq

/-- `User.findOne({email: e})` with an already-normalized lookup key. -/
def findOneByEmail (users : List User) (e : String) : Option User :=
  users.find? (fun u => u.email == e)

/-- `User.findById(id)`. -/
def findById (users : List User) (i : Nat) : Option User :=
  users.find? (fun u => u.id == i)

/-- The user as serialized in responses: id, email, createdAt, no password
    (src/server.js lines 144-148 and 254 `.select('-password')`). -/
structure UserView where
  id : Nat
  email : String
  createdAt : Nat
deriving DecidableEq

def toView (u : User) : UserView :=
  ⟨u.id, u.email, u.createdAt⟩

/-- JSON response shape: HTTP status plus the observable body fields.  A `none`
    field is absent from the JSON body. -/
structure Response where
  status : Nat
  success : Option Bool
  message : Option String
  dataUser : Option UserView
  dataToken : Option (List Char)
  errorMsg : Option String
  dbState : Option String
deriving DecidableEq

/-- Failure body `{success:false, message}`. -/
def mkErr (status : Nat) (msg : String) : Response :=
  ⟨status, some false, some msg, none, none, none, none⟩

/-- 500 body `{success:false, message, error}` from the catch blocks. -/
def mkErr500 (msg : String) : Response :=
  ⟨500, some false, some msg, none, none, some "store unavailable", none⟩

/-- JS truthiness of `req.body.email` / `req.body.password`:
    absent or empty string is falsy. -/
def present : Option String → Bool
  | none => false
  | some s => s != ""

/- ===== src/server.js inline handlers ===== -/

/-- POST /api/auth/register (src/server.js lines 81-163).  `dbFails` models the
    credential store throwing (the catch block); validation runs before any
    store access. -/
def serverRegister (st : St) (now : Nat) (dbFails : Bool)
    (email password : Option String) : Response × St :=
  if present email && present password then
    let p := password.getD ""
    if p.length < 6 then
      (mkErr 400 "Password must be at least 6 characters", st)
    else if dbFails then
      (mkErr500 "Server error during registration", st)
    else
      let e := email.getD ""
      match findOneByEmail st.users (normalizeEmail e) with
      | some _ => (mkErr 400 "User already exists with this email", st)
      | none =>
        let user : User := ⟨st.nextId, normalizeEmail e, bcryptHash p, now⟩
        (⟨201, some true, some "User registered successfully", some (toView user),
            some (jwtSign user.id user.email server_JWT_SECRET now), none, none⟩,
          ⟨st.users ++ [user], st.nextId + 1⟩)
  else
    (mkErr 400 "Email and password are required", st)

/-- POST /api/auth/login (src/server.js lines 166-236). -/
def serverLogin (st : St) (now : Nat) (dbFails : Bool)
    (email password : Option String) : Response × St :=
  if present email && present password then
    if dbFails then
      (mkErr500 "Server error during login", st)
    else
      let e := email.getD ""
      let p := password.getD ""
      match findOneByEmail st.users (normalizeEmail e) with
      | none => (mkErr 401 "Invalid email or password", st)
      | some user =>
        if bcryptCompare p user.password then
          (⟨200, some true, some "Login successful", some (toView user),
              some (jwtSign user.id user.email server_JWT_SECRET now), none, none⟩, st)
        else
          (mkErr 401 "Invalid email or password", st)
  else
    (mkErr 400 "Email and password are required", st)

/-- The 401 `No token provided` response (src/server.js lines 244-248). -/
def noTokenResp : Response := mkErr 401 "No token provided"

/-- Common body of the two profile handlers, which differ only in the verifying
    secret and the wording of the no-token 401.  `token` is the already-stripped
    Authorization value; the catch block turns every thrown error — jwt.verify
    failures and store failures alike — into 401 `Invalid or expired token`. -/
def profileCore (st : St) (now : Nat) (dbFails : Bool) (secret : String)
    (noTok : Response) (token : Option String) : Response :=
  if present token then
    match jwtVerify (token.getD "").data secret now with
    | none => mkErr 401 "Invalid or expired token"
    | some decoded =>
      if dbFails then
        mkErr 401 "Invalid or expired token"
      else
        match findById st.users decoded.id with
        | none => mkErr 404 "User not found"
        | some user => ⟨200, some true, none, some (toView user), none, none, none⟩
  else
    noTok

/-- GET /api/auth/profile (src/server.js lines 239-274). -/
def serverProfile (st : St) (now : Nat) (dbFails : Bool)
    (authHeader : Option String) : Response :=
  profileCore st now dbFails server_JWT_SECRET noTokenResp (authHeader.map stripBearer)

/-- GET /api/health (src/server.js lines 66-78): the body has status, message,
    timestamp, database and endpoints fields but no `success` field. -/
def healthHandler (dbConnected : Bool) : Response :=
  ⟨200, none, some "Splito Backend is running", none, none, none,
    some (if dbConnected then "connected" else "disconnected")⟩

/-- Unmatched-route handler (src/server.js lines 279-284). -/
def notFoundHandler : Response := mkErr 404 "Route not found"

/-- Global error handler (src/server.js lines 287-294). -/
def globalErrorHandler (errMsg : String) : Response :=
  ⟨500, some false, some "Internal server error", none, none, some errMsg, none⟩

/-- GET /api/auth/profile via the controller (src/controllers/auth.controller.js
    lines 135-168), mounted at the same path by src/routes/auth.route.js; it
    verifies with the controller's secret and words its no-token 401 differently. -/
def controllerProfile (env : Option String) (st : St) (now : Nat) (dbFails : Bool)
    (authHeader : Option String) : Response :=
  profileCore st now dbFails (controller_JWT_SECRET env)
    (mkErr 401 "Access denied. No token provided.") (authHeader.map stripBearer)

/- ===== Helper lemmas about extraction, tokens and the store ===== -/

theorem bearer_data_ne_nil : ("Bearer ").data ≠ [] := by decide

theorem stripBearer_bearer (t : List Char) :
    stripBearer (String.mk (("Bearer ").data ++ t)) = String.mk t := by
  unfold stripBearer
  show String.mk (replaceFirst ("Bearer ").data (("Bearer ").data ++ t)) = String.mk t
  rw [replaceFirst_append _ _ bearer_data_ne_nil]

theorem stripBearer_no_space (t : List Char) (h : ∀ x ∈ t, x ≠ ' ') :
    stripBearer (String.mk t) = String.mk t := by
  unfold stripBearer
  show String.mk (replaceFirst ("Bearer ").data t) = String.mk t
  rw [replaceFirst_no_space t h]

theorem mem_encNat_ne_space (n : Nat) : ∀ x ∈ encNat n, x ≠ ' ' := by
  intro x hx heq
  obtain ⟨h1, h2⟩ := mem_encNat_range n x hx
  subst heq
  have h32 : (' ').toNat = 32 := rfl
  omega

theorem mem_encStr_ne_space : ∀ s : List Char, ∀ x ∈ encStr s, x ≠ ' ' := by
  intro s
  induction s with
  | nil =>
    intro x hx
    simp [encStr] at hx
  | cons c cs ih =>
    intro x hx
    simp only [encStr, List.mem_append, List.mem_cons] at hx
    rcases hx with hx | hx | hx
    · exact mem_encNat_ne_space c.toNat x hx
    · subst hx
      decide
    · exact ih x hx

theorem tokenEncode_no_space (p : JwtPayload) (s : String) :
    ∀ x ∈ tokenEncode p s, x ≠ ' ' := by
  intro x hx
  unfold tokenEncode at hx
  simp only [List.mem_append, List.mem_cons] at hx
  have hdot : ('.' : Char) ≠ ' ' := by decide
  rcases hx with hx | hx | hx | hx | hx | hx | hx | hx | hx
  · exact mem_encNat_ne_space p.id x hx
  · subst hx; exact hdot
  · exact mem_encStr_ne_space p.email.data x hx
  · subst hx; exact hdot
  · exact mem_encNat_ne_space p.iat x hx
  · subst hx; exact hdot
  · exact mem_encNat_ne_space p.exp x hx
  · subst hx; exact hdot
  · exact mem_encStr_ne_space s.data x hx

theorem tokenEncode_ne_nil (p : JwtPayload) (s : String) : tokenEncode p s ≠ [] := by
  unfold tokenEncode
  cases h : encNat p.id <;> simp

theorem present_mk_of_ne_nil (t : List Char) (h : t ≠ []) :
    present (some (String.mk t)) = true := by
  simp only [present, bne_iff_ne, ne_eq]
  intro heq
  exact h (congrArg String.data heq)

theorem profileCore_some (st : St) (now : Nat) (df : Bool) (secret : String)
    (noTok : Response) (t : List Char) (ht : t ≠ []) :
    profileCore st now df secret noTok (some (String.mk t)) =
      (match jwtVerify t secret now with
       | none => mkErr 401 "Invalid or expired token"
       | some decoded =>
         if df then
           mkErr 401 "Invalid or expired token"
         else
           match findById st.users decoded.id with
           | none => mkErr 404 "User not found"
           | some user => ⟨200, some true, none, some (toView user), none, none, none⟩) := by
  unfold profileCore
  rw [present_mk_of_ne_nil t ht]
  rfl

theorem serverProfile_bearer (st : St) (now : Nat) (df : Bool) (t : List Char)
    (ht : t ≠ []) :
    serverProfile st now df (some (String.mk (("Bearer ").data ++ t))) =
      (match jwtVerify t server_JWT_SECRET now with
       | none => mkErr 401 "Invalid or expired token"
       | some decoded =>
         if df then
           mkErr 401 "Invalid or expired token"
         else
           match findById st.users decoded.id with
           | none => mkErr 404 "User not found"
           | some user => ⟨200, some true, none, some (toView user), none, none, none⟩) := by
  unfold serverProfile
  rw [Option.map_some', stripBearer_bearer]
  exact profileCore_some st now df server_JWT_SECRET noTokenResp t ht

theorem controllerProfile_bearer (env : Option String) (st : St) (now : Nat) (df : Bool)
    (t : List Char) (ht : t ≠ []) :
    controllerProfile env st now df (some (String.mk (("Bearer ").data ++ t))) =
      (match jwtVerify t (controller_JWT_SECRET env) now with
       | none => mkErr 401 "Invalid or expired token"
       | some decoded =>
         if df then
           mkErr 401 "Invalid or expired token"
         else
           match findById st.users decoded.id with
           | none => mkErr 404 "User not found"
           | some user => ⟨200, some true, none, some (toView user), none, none, none⟩) := by
  unfold controllerProfile
  rw [Option.map_some', stripBearer_bearer]
  exact profileCore_some st now df (controller_JWT_SECRET env) _ t ht

theorem findOneByEmail_append_of_none (l : List User) (u : User) (e : String)
    (hl : findOneByEmail l e = none) (hu : u.email = e) :
    findOneByEmail (l ++ [u]) e = some u := by
  unfold findOneByEmail at hl ⊢
  rw [List.find?_append, hl, Option.none_or]
  exact List.find?_cons_of_pos _ (by simp [hu])

theorem findOneByEmail_append_isSome (l : List User) (u : User) (e : String)
    (hu : u.email = e) : ∃ v, findOneByEmail (l ++ [u]) e = some v := by
  unfold findOneByEmail
  rw [List.find?_append]
  cases h : l.find? (fun x => x.email == e) with
  | some v =>
    exact ⟨v, by rw [Option.or_some]⟩
  | none =>
    refine ⟨u, ?_⟩
    rw [Option.none_or]
    exact List.find?_cons_of_pos _ (by simp [hu])

theorem findById_append_of_fresh (l : List User) (u : User) (i : Nat)
    (hl : ∀ v ∈ l, v.id ≠ i) (hu : u.id = i) :
    findById (l ++ [u]) i = some u := by
  unfold findById
  rw [List.find?_append]
  have hnone : l.find? (fun v => v.id == i) = none := by
    rw [List.find?_eq_none]
    intro v hv
    simp [hl v hv]
  rw [hnone, Option.none_or]
  exact List.find?_cons_of_pos _ (by simp [hu])

/-- Characterization of a successful registration (HTTP 201): the inputs passed
    validation, no user carried the normalized email, and the handler appended
    exactly one record with the normalized email and hashed password. -/
theorem serverRegister_201 (st : St) (now : Nat) (e? p? : Option String)
    (h : (serverRegister st now false e? p?).1.status = 201) :
    ∃ e p, e? = some e ∧ p? = some p ∧ e ≠ "" ∧ 6 ≤ p.length ∧
      findOneByEmail st.users (normalizeEmail e) = none ∧
      serverRegister st now false e? p? =
        (⟨201, some true, some "User registered successfully",
            some ⟨st.nextId, normalizeEmail e, now⟩,
            some (jwtSign st.nextId (normalizeEmail e) server_JWT_SECRET now), none, none⟩,
          ⟨st.users ++ [⟨st.nextId, normalizeEmail e, bcryptHash p, now⟩], st.nextId + 1⟩) := by
  by_cases hep : (present e? && present p?) = true
  · obtain ⟨he, hp⟩ := Bool.and_eq_true_iff.mp hep
    cases e? with
    | none => simp [present] at he
    | some e =>
      cases p? with
      | none => simp [present] at hp
      | some p =>
        have he' : e ≠ "" := by simpa [present, bne_iff_ne] using he
        refine ⟨e, p, rfl, rfl, he', ?_⟩
        unfold serverRegister at h ⊢
        rw [if_pos hep] at h ⊢
        simp only [Option.getD_some] at h ⊢
        by_cases hlen : p.length < 6
        · rw [if_pos hlen] at h
          simp [mkErr] at h
        · rw [if_neg hlen] at h ⊢
          simp only [Bool.false_eq_true, if_false] at h ⊢
          refine ⟨by omega, ?_⟩
          cases hfind : findOneByEmail st.users (normalizeEmail e) with
          | some u =>
            rw [hfind] at h
            simp [mkErr] at h
          | none =>
            exact ⟨rfl, rfl⟩
  · unfold serverRegister at h
    rw [if_neg hep] at h
    simp [mkErr] at h

/- ===== Claim theorems ===== -/

/-- C5: a token issued at clock time T carries expiry claim exactly T + 7 days,
    verification accepts it at T and at T + 6 days 23 hours, and rejects it at
    T + 7 days + 1 second. -/
theorem C5_token_seven_day_window (uid : Nat) (email secret : String) (T : Nat) :
    sevenDaysSec = 7 * 24 * 60 * 60 ∧
    tokenDecode (jwtSign uid email secret T) =
      some (⟨uid, email, T, T + sevenDaysSec⟩, secret.data) ∧
    jwtVerify (jwtSign uid email secret T) secret T =
      some ⟨uid, email, T, T + sevenDaysSec⟩ ∧
    jwtVerify (jwtSign uid email secret T) secret (T + (6 * 86400 + 23 * 3600)) =
      some ⟨uid, email, T, T + sevenDaysSec⟩ ∧
    jwtVerify (jwtSign uid email secret T) secret (T + (7 * 86400 + 1)) = none := by
  have hval : sevenDaysSec = 604800 := rfl
  refine ⟨rfl, tokenDecode_tokenEncode _ _, ?_, ?_, ?_⟩
  · exact jwtVerify_ok _ _ _ (by show T < T + sevenDaysSec; rw [hval]; omega)
  · exact jwtVerify_ok _ _ _
      (by show T + (6 * 86400 + 23 * 3600) < T + sevenDaysSec; rw [hval]; omega)
  · exact jwtVerify_expired _ _ _
      (by show T + sevenDaysSec ≤ T + (7 * 86400 + 1); rw [hval]; omega)

/-- C7 counterexample: the claim says the program holds no hardcoded secret and
    never signs with a built-in constant when no external secret is configured;
    but with the environment unset the controller signs with the hardcoded
    default, the resulting token verifies under that built-in constant, and
    src/server.js uses its own hardcoded constant unconditionally. -/
theorem C7_hardcoded_secret_cex :
    controller_JWT_SECRET none = "splito-secret-key-12345" ∧
    server_JWT_SECRET = "splito-jwt-secret-key-2024" ∧
    jwtVerify (generateToken none 1 "a@test.com" 0) "splito-secret-key-12345" 0 =
      some ⟨1, "a@test.com", 0, sevenDaysSec⟩ := by
  refine ⟨rfl, rfl, ?_⟩
  decide

/-- C7 amended: the controller respects a configured JWT_SECRET (when set and
    nonempty) but falls back to the hardcoded default 'splito-secret-key-12345'
    when the environment variable is unset, while src/server.js ignores external
    configuration entirely and always signs with the hardcoded constant
    'splito-jwt-secret-key-2024'; the two built-in constants differ. -/
theorem C7_secret_configuration (s : String) (h : s ≠ "") :
    controller_JWT_SECRET (some s) = s ∧
    controller_JWT_SECRET none = "splito-secret-key-12345" ∧
    server_JWT_SECRET = "splito-jwt-secret-key-2024" ∧
    controller_JWT_SECRET none ≠ server_JWT_SECRET := by
  refine ⟨?_, rfl, rfl, by decide⟩
  simp [controller_JWT_SECRET, h]

/-- C7 witness: instantiation of the amended claim at the secret "mykey". -/
theorem C7_secret_configuration_witness :
    ("mykey" : String) ≠ "" ∧
    (controller_JWT_SECRET (some "mykey") = "mykey" ∧
     controller_JWT_SECRET none = "splito-secret-key-12345" ∧
     server_JWT_SECRET = "splito-jwt-secret-key-2024" ∧
     controller_JWT_SECRET none ≠ server_JWT_SECRET) :=
  ⟨by decide, C7_secret_configuration "mykey" (by decide)⟩

/-- C8: a register request with the email absent, the password absent, or a
    password shorter than 6 characters fails with HTTP 400 and success:false,
    and the credential store is left unchanged (no user record created). -/
theorem C8_register_validation (st : St) (now : Nat) (df : Bool)
    (e? p? : Option String)
    (h : e? = none ∨ p? = none ∨ ∃ p, p? = some p ∧ p.length < 6) :
    (serverRegister st now df e? p?).1.status = 400 ∧
    (serverRegister st now df e? p?).1.success = some false ∧
    (serverRegister st now df e? p?).2 = st := by
  unfold serverRegister
  by_cases hep : (present e? && present p?) = true
  · rw [if_pos hep]
    obtain ⟨he, hp⟩ := Bool.and_eq_true_iff.mp hep
    rcases h with h | h | h
    · subst h
      simp [present] at he
    · subst h
      simp [present] at hp
    · obtain ⟨p, hp2, hlen⟩ := h
      subst hp2
      simp only [Option.getD_some]
      rw [if_pos hlen]
      exact ⟨rfl, rfl, rfl⟩
  · rw [if_neg hep]
    exact ⟨rfl, rfl, rfl⟩

/-- C8 witness: a register request with no email and a valid password is
    rejected with 400 and creates nothing. -/
theorem C8_register_validation_witness :
    ((none : Option String) = none ∨ (some "secret1" : Option String) = none ∨
      ∃ p, (some "secret1" : Option String) = some p ∧ p.length < 6) ∧
    ((serverRegister ⟨[], 0⟩ 0 false none (some "secret1")).1.status = 400 ∧
     (serverRegister ⟨[], 0⟩ 0 false none (some "secret1")).1.success = some false ∧
     (serverRegister ⟨[], 0⟩ 0 false none (some "secret1")).2 = ⟨[], 0⟩) :=
  ⟨Or.inl rfl, C8_register_validation ⟨[], 0⟩ 0 false none (some "secret1") (Or.inl rfl)⟩

/-- C4: login with an unregistered email and login with a registered email but a
    wrong password produce identical responses — the same HTTP 401 and the same
    body success:false, message 'Invalid email or password' — and neither
    changes the store. -/
theorem C4_login_uniform_invalid (st : St) (now now' : Nat)
    (e p e' p' : String) (he : e ≠ "") (hp : p ≠ "") (he' : e' ≠ "") (hp' : p' ≠ "")
    (u : User)
    (hnone : findOneByEmail st.users (normalizeEmail e) = none)
    (hsome : findOneByEmail st.users (normalizeEmail e') = some u)
    (hbad : bcryptCompare p' u.password = false) :
    serverLogin st now false (some e) (some p) =
      serverLogin st now' false (some e') (some p') ∧
    (serverLogin st now false (some e) (some p)).1 =
      mkErr 401 "Invalid email or password" ∧
    (serverLogin st now false (some e) (some p)).2 = st := by
  have hpe : (present (some e) && present (some p)) = true := by
    simp [present, bne_iff_ne, he, hp]
  have hpe' : (present (some e') && present (some p')) = true := by
    simp [present, bne_iff_ne, he', hp']
  unfold serverLogin
  rw [if_pos hpe, if_pos hpe']
  simp only [Bool.false_eq_true, if_false, Option.getD_some]
  rw [hnone, hsome]
  simp only [hbad, Bool.false_eq_true, if_false]
  exact ⟨trivial, trivial, trivial⟩

/-- C4 witness: with one stored user b@x.com, login for unknown a@x.com and
    login for b@x.com with a wrong password return the identical 401 response. -/
theorem C4_login_uniform_invalid_witness :
    (("a@x.com" : String) ≠ "" ∧ ("pass123" : String) ≠ "" ∧
     ("b@x.com" : String) ≠ "" ∧ ("wrong12" : String) ≠ "" ∧
     findOneByEmail [⟨0, "b@x.com", bcryptHash "secret1", 0⟩]
       (normalizeEmail "a@x.com") = none ∧
     findOneByEmail [⟨0, "b@x.com", bcryptHash "secret1", 0⟩]
       (normalizeEmail "b@x.com") = some ⟨0, "b@x.com", bcryptHash "secret1", 0⟩ ∧
     bcryptCompare "wrong12" (bcryptHash "secret1") = false) ∧
    (serverLogin ⟨[⟨0, "b@x.com", bcryptHash "secret1", 0⟩], 1⟩ 5 false
        (some "a@x.com") (some "pass123") =
      serverLogin ⟨[⟨0, "b@x.com", bcryptHash "secret1", 0⟩], 1⟩ 9 false
        (some "b@x.com") (some "wrong12") ∧
     (serverLogin ⟨[⟨0, "b@x.com", bcryptHash "secret1", 0⟩], 1⟩ 5 false
        (some "a@x.com") (some "pass123")).1 = mkErr 401 "Invalid email or password" ∧
     (serverLogin ⟨[⟨0, "b@x.com", bcryptHash "secret1", 0⟩], 1⟩ 5 false
        (some "a@x.com") (some "pass123")).2 =
       ⟨[⟨0, "b@x.com", bcryptHash "secret1", 0⟩], 1⟩) :=
  ⟨⟨by decide, by decide, by decide, by decide, by decide, by decide, by decide⟩,
    C4_login_uniform_invalid ⟨[⟨0, "b@x.com", bcryptHash "secret1", 0⟩], 1⟩ 5 9
      "a@x.com" "pass123" "b@x.com" "wrong12" (by decide) (by decide) (by decide)
      (by decide) ⟨0, "b@x.com", bcryptHash "secret1", 0⟩ (by decide) (by decide)
      (by decide)⟩

/-- C1 counterexample: registering a@test.com succeeds; a second register whose
    email normalizes to the same string but whose password is too short fails
    with the ValidationError message, not the AlreadyExists message — so the
    second attempt does not always fail with AlreadyExists. -/
theorem C1_duplicate_email_register_cex :
    normalizeEmail "a@test.com" = normalizeEmail "A@Test.com " ∧
    (serverRegister ⟨[], 0⟩ 0 false (some "a@test.com") (some "secret1")).1.status = 201 ∧
    (serverRegister ((serverRegister ⟨[], 0⟩ 0 false (some "a@test.com")
        (some "secret1")).2) 0 false (some "A@Test.com ") (some "ab")).1.status = 400 ∧
    (serverRegister ((serverRegister ⟨[], 0⟩ 0 false (some "a@test.com")
        (some "secret1")).2) 0 false (some "A@Test.com ") (some "ab")).1.message =
      some "Password must be at least 6 characters" ∧
    (serverRegister ((serverRegister ⟨[], 0⟩ 0 false (some "a@test.com")
        (some "secret1")).2) 0 false (some "A@Test.com ") (some "ab")).1.message ≠
      some "User already exists with this email" :=
  ⟨by decide, by decide, by decide, by decide, by decide⟩

/-- C1 amended: if a first register succeeds and a second register request
    carries an email normalizing to the same string, a present (nonempty) email
    and a password of length at least 6, then the second register fails with the
    AlreadyExists response — HTTP 400, success:false, message 'User already
    exists with this email' — and leaves the store unchanged, regardless of
    letter case or surrounding whitespace in either email. -/
theorem C1_duplicate_email_register (st : St) (now now' : Nat)
    (e1 p1 e2 p2 : String)
    (hnorm : normalizeEmail e1 = normalizeEmail e2)
    (he2 : e2 ≠ "") (hp2 : 6 ≤ p2.length)
    (h1 : (serverRegister st now false (some e1) (some p1)).1.status = 201) :
    serverRegister ((serverRegister st now false (some e1) (some p1)).2) now' false
        (some e2) (some p2) =
      (mkErr 400 "User already exists with this email",
        (serverRegister st now false (some e1) (some p1)).2) := by
  obtain ⟨e, p, heq1, heq2, hene, hlen, hfind, heq⟩ :=
    serverRegister_201 st now (some e1) (some p1) h1
  obtain rfl : e1 = e := Option.some.inj heq1
  obtain rfl : p1 = p := Option.some.inj heq2
  rw [heq]
  have hp2ne : p2 ≠ "" := by
    intro hh
    subst hh
    have hz : ("" : String).length = 0 := rfl
    omega
  have hpe : (present (some e2) && present (some p2)) = true := by
    simp [present, bne_iff_ne, he2, hp2ne]
  have hdup : ∃ v, findOneByEmail
      (st.users ++ [⟨st.nextId, normalizeEmail e1, bcryptHash p1, now⟩])
      (normalizeEmail e2) = some v := by
    apply findOneByEmail_append_isSome
    exact hnorm
  obtain ⟨v, hv⟩ := hdup
  unfold serverRegister
  rw [if_pos hpe]
  simp only [Option.getD_some]
  rw [if_neg (by omega : ¬ p2.length < 6)]
  simp only [Bool.false_eq_true, if_false]
  rw [hv]

/-- C1 witness: instantiation of the amended claim — the second, validly formed
    register for A@Test.com (with whitespace and different case) hits
    AlreadyExists after a@test.com was registered. -/
theorem C1_duplicate_email_register_witness :
    (normalizeEmail "a@test.com" = normalizeEmail "A@Test.com " ∧
     ("A@Test.com " : String) ≠ "" ∧ 6 ≤ ("secret2" : String).length ∧
     (serverRegister ⟨[], 0⟩ 0 false (some "a@test.com") (some "secret1")).1.status = 201) ∧
    serverRegister ((serverRegister ⟨[], 0⟩ 0 false (some "a@test.com")
        (some "secret1")).2) 3 false (some "A@Test.com ") (some "secret2") =
      (mkErr 400 "User already exists with this email",
        (serverRegister ⟨[], 0⟩ 0 false (some "a@test.com") (some "secret1")).2) :=
  ⟨⟨by decide, by decide, by decide, by decide⟩,
    C1_duplicate_email_register ⟨[], 0⟩ 0 3 "a@test.com" "secret1" "A@Test.com "
      "secret2" (by decide) (by decide) (by decide) (by decide)⟩

/-- C2 counterexample: a profile request carrying a valid token while the
    credential store is unavailable is answered 401 'Invalid or expired token',
    not the InternalError 500 shape the claim requires for every endpoint. -/
theorem C2_exception_handling_cex :
    serverProfile ⟨[⟨0, "a@test.com", bcryptHash "secret1", 0⟩], 1⟩ 0 true
        (some (String.mk (("Bearer ").data ++
          jwtSign 0 "a@test.com" server_JWT_SECRET 0))) =
      mkErr 401 "Invalid or expired token" ∧
    (mkErr 401 "Invalid or expired token").status ≠ 500 :=
  ⟨by decide, by decide⟩

/-- C2 amended: when the credential store throws, register and login respond
    with the InternalError shape (HTTP 500, success:false, with a message
    string), but the profile handler's catch-all responds 401 'Invalid or
    expired token' for any exception, including store unavailability. -/
theorem C2_exception_handling (st : St) (now : Nat) (e p : String)
    (he : e ≠ "") (hp : p ≠ "") (hlen : ¬ p.length < 6) (q : JwtPayload)
    (hexp : now < q.exp) :
    ((serverRegister st now true (some e) (some p)).1.status = 500 ∧
     (serverRegister st now true (some e) (some p)).1.success = some false ∧
     ((serverRegister st now true (some e) (some p)).1.message).isSome = true) ∧
    ((serverLogin st now true (some e) (some p)).1.status = 500 ∧
     (serverLogin st now true (some e) (some p)).1.success = some false ∧
     ((serverLogin st now true (some e) (some p)).1.message).isSome = true) ∧
    serverProfile st now true
        (some (String.mk (("Bearer ").data ++ tokenEncode q server_JWT_SECRET))) =
      mkErr 401 "Invalid or expired token" := by
  have hpe : (present (some e) && present (some p)) = true := by
    simp [present, bne_iff_ne, he, hp]
  refine ⟨?_, ?_, ?_⟩
  · unfold serverRegister
    rw [if_pos hpe]
    simp only [Option.getD_some]
    rw [if_neg hlen]
    exact ⟨rfl, rfl, rfl⟩
  · unfold serverLogin
    rw [if_pos hpe]
    exact ⟨rfl, rfl, rfl⟩
  · rw [serverProfile_bearer st now true _ (tokenEncode_ne_nil q server_JWT_SECRET)]
    rw [jwtVerify_ok q server_JWT_SECRET now hexp]
    rfl

/-- C2 witness: instantiation of the amended claim at a registered user, a valid
    request, and a failing store. -/
theorem C2_exception_handling_witness :
    (("a@test.com" : String) ≠ "" ∧ ("secret1" : String) ≠ "" ∧
     ¬ ("secret1" : String).length < 6 ∧
     (0 : Nat) < (⟨0, "a@test.com", 0, sevenDaysSec⟩ : JwtPayload).exp) ∧
    (((serverRegister ⟨[], 0⟩ 0 true (some "a@test.com") (some "secret1")).1.status = 500 ∧
      (serverRegister ⟨[], 0⟩ 0 true (some "a@test.com") (some "secret1")).1.success =
        some false ∧
      ((serverRegister ⟨[], 0⟩ 0 true (some "a@test.com")
          (some "secret1")).1.message).isSome = true) ∧
     ((serverLogin ⟨[], 0⟩ 0 true (some "a@test.com") (some "secret1")).1.status = 500 ∧
      (serverLogin ⟨[], 0⟩ 0 true (some "a@test.com") (some "secret1")).1.success =
        some false ∧
      ((serverLogin ⟨[], 0⟩ 0 true (some "a@test.com")
          (some "secret1")).1.message).isSome = true) ∧
     serverProfile ⟨[], 0⟩ 0 true
         (some (String.mk (("Bearer ").data ++
           tokenEncode ⟨0, "a@test.com", 0, sevenDaysSec⟩ server_JWT_SECRET))) =
       mkErr 401 "Invalid or expired token") :=
  ⟨⟨by decide, by decide, by decide, by decide⟩,
    C2_exception_handling ⟨[], 0⟩ 0 "a@test.com" "secret1" (by decide) (by decide)
      (by decide) ⟨0, "a@test.com", 0, sevenDaysSec⟩ (by decide)⟩

/-- Envelope property of the shared profile body: the response always carries a
    success field, and failure responses carry a message, provided the no-token
    response does. -/
theorem profileCore_envelope (st : St) (now : Nat) (df : Bool) (secret : String)
    (noTok : Response) (token : Option String)
    (hnoTok : noTok.success.isSome = true ∧
      (400 ≤ noTok.status → noTok.message.isSome = true)) :
    (profileCore st now df secret noTok token).success.isSome = true ∧
    (400 ≤ (profileCore st now df secret noTok token).status →
      (profileCore st now df secret noTok token).message.isSome = true) := by
  unfold profileCore
  split
  · split
    · exact ⟨rfl, fun _ => rfl⟩
    · split
      · exact ⟨rfl, fun _ => rfl⟩
      · split
        · exact ⟨rfl, fun _ => rfl⟩
        · exact ⟨rfl, fun hcon => absurd (show (400 : Nat) ≤ 200 from hcon) (by decide)⟩
  · exact hnoTok

/-- C3 counterexample: the health endpoint's response has no success field. -/
theorem C3_response_envelope_cex : (healthHandler true).success = none := rfl

/-- C3 amended: every response from register, login, profile (both
    implementations), the 404 handler and the global error handler carries a
    boolean success field, and every failure response (status at least 400)
    among them carries a message; the health endpoint's response carries no
    success field, though it does carry a message and the database state. -/
theorem C3_response_envelope :
    (∀ st now df e? p?, ((serverRegister st now df e? p?).1.success).isSome = true ∧
      (400 ≤ (serverRegister st now df e? p?).1.status →
        ((serverRegister st now df e? p?).1.message).isSome = true)) ∧
    (∀ st now df e? p?, ((serverLogin st now df e? p?).1.success).isSome = true ∧
      (400 ≤ (serverLogin st now df e? p?).1.status →
        ((serverLogin st now df e? p?).1.message).isSome = true)) ∧
    (∀ st now df h?, ((serverProfile st now df h?).success).isSome = true ∧
      (400 ≤ (serverProfile st now df h?).status →
        ((serverProfile st now df h?).message).isSome = true)) ∧
    (∀ env st now df h?,
      ((controllerProfile env st now df h?).success).isSome = true ∧
      (400 ≤ (controllerProfile env st now df h?).status →
        ((controllerProfile env st now df h?).message).isSome = true)) ∧
    (∀ b, (healthHandler b).success = none ∧
      ((healthHandler b).message).isSome = true) ∧
    (notFoundHandler.success = some false ∧
      (notFoundHandler.message).isSome = true) ∧
    (∀ msg, (globalErrorHandler msg).success = some false ∧
      ((globalErrorHandler msg).message).isSome = true) := by
  refine ⟨?_, ?_, ?_, ?_, ?_, ⟨rfl, rfl⟩, fun msg => ⟨rfl, rfl⟩⟩
  · intro st now df e? p?
    simp only [serverRegister]
    split
    · split
      · exact ⟨rfl, fun _ => rfl⟩
      · split
        · exact ⟨rfl, fun _ => rfl⟩
        · split
          · exact ⟨rfl, fun _ => rfl⟩
          · exact ⟨rfl, fun hcon =>
              absurd (show (400 : Nat) ≤ 201 from hcon) (by decide)⟩
    · exact ⟨rfl, fun _ => rfl⟩
  · intro st now df e? p?
    simp only [serverLogin]
    split
    · split
      · exact ⟨rfl, fun _ => rfl⟩
      · split
        · exact ⟨rfl, fun _ => rfl⟩
        · split
          · exact ⟨rfl, fun hcon =>
              absurd (show (400 : Nat) ≤ 200 from hcon) (by decide)⟩
          · exact ⟨rfl, fun _ => rfl⟩
    · exact ⟨rfl, fun _ => rfl⟩
  · intro st now df h?
    exact profileCore_envelope st now df server_JWT_SECRET noTokenResp
      (h?.map stripBearer) ⟨rfl, fun _ => rfl⟩
  · intro env st now df h?
    exact profileCore_envelope st now df (controller_JWT_SECRET env)
      (mkErr 401 "Access denied. No token provided.") (h?.map stripBearer)
      ⟨rfl, fun _ => rfl⟩
  · intro b
    exact ⟨rfl, rfl⟩

/-- C3 witness: the failure clause instantiated — a register request with both
    fields missing is a failure response (status 400 is at least 400) and indeed
    carries a message. -/
theorem C3_response_envelope_witness :
    400 ≤ (serverRegister ⟨[], 0⟩ 0 false none none).1.status ∧
    ((serverRegister ⟨[], 0⟩ 0 false none none).1.message).isSome = true :=
  ⟨by decide, (C3_response_envelope.1 ⟨[], 0⟩ 0 false none none).2 (by decide)⟩

/-- C6: after a successful registration of (email, password), a later login with
    the same credentials succeeds — HTTP 200, success:true — and returns a token
    that verification accepts with subject id equal to the registered user's id,
    so that profile presented with that token returns that user. -/
theorem C6_register_login_roundtrip (st : St) (now now2 : Nat) (e p : String)
    (hids : ∀ v ∈ st.users, v.id < st.nextId)
    (h1 : (serverRegister st now false (some e) (some p)).1.status = 201) :
    serverLogin ((serverRegister st now false (some e) (some p)).2) now2 false
        (some e) (some p) =
      (⟨200, some true, some "Login successful",
          some ⟨st.nextId, normalizeEmail e, now⟩,
          some (jwtSign st.nextId (normalizeEmail e) server_JWT_SECRET now2),
          none, none⟩,
        (serverRegister st now false (some e) (some p)).2) ∧
    jwtVerify (jwtSign st.nextId (normalizeEmail e) server_JWT_SECRET now2)
        server_JWT_SECRET now2 =
      some ⟨st.nextId, normalizeEmail e, now2, now2 + sevenDaysSec⟩ ∧
    serverProfile ((serverRegister st now false (some e) (some p)).2) now2 false
        (some (String.mk (("Bearer ").data ++
          jwtSign st.nextId (normalizeEmail e) server_JWT_SECRET now2))) =
      ⟨200, some true, none, some ⟨st.nextId, normalizeEmail e, now⟩,
        none, none, none⟩ := by
  obtain ⟨e', p', heq1, heq2, hene, hlen, hfind, heq⟩ :=
    serverRegister_201 st now (some e) (some p) h1
  obtain rfl : e = e' := Option.some.inj heq1
  obtain rfl : p = p' := Option.some.inj heq2
  rw [heq]
  have hpne : p ≠ "" := by
    intro hh
    subst hh
    have hz : ("" : String).length = 0 := rfl
    omega
  have hpe : (present (some e) && present (some p)) = true := by
    simp [present, bne_iff_ne, hene, hpne]
  have hexp : now2 < now2 + sevenDaysSec := by
    have hval : sevenDaysSec = 604800 := rfl
    omega
  have hlookup : findOneByEmail
      (st.users ++ [⟨st.nextId, normalizeEmail e, bcryptHash p, now⟩])
      (normalizeEmail e) =
      some ⟨st.nextId, normalizeEmail e, bcryptHash p, now⟩ :=
    findOneByEmail_append_of_none st.users _ _ hfind rfl
  refine ⟨?_, ?_, ?_⟩
  · unfold serverLogin
    rw [if_pos hpe]
    simp only [Bool.false_eq_true, if_false, Option.getD_some]
    rw [hlookup]
    have hcmp : bcryptCompare p (bcryptHash p) = true := by
      simp [bcryptCompare]
    simp only [hcmp, if_true]
    rfl
  · exact jwtVerify_ok _ _ _ hexp
  · rw [show jwtSign st.nextId (normalizeEmail e) server_JWT_SECRET now2 =
      tokenEncode ⟨st.nextId, normalizeEmail e, now2, now2 + sevenDaysSec⟩
        server_JWT_SECRET from rfl]
    rw [serverProfile_bearer _ now2 false _ (tokenEncode_ne_nil _ _)]
    rw [jwtVerify_ok _ _ _ hexp]
    have hfid : findById
        (st.users ++ [⟨st.nextId, normalizeEmail e, bcryptHash p, now⟩])
        st.nextId = some ⟨st.nextId, normalizeEmail e, bcryptHash p, now⟩ := by
      apply findById_append_of_fresh
      · intro v hv
        have := hids v hv
        omega
      · rfl
    show (if false = true then mkErr 401 "Invalid or expired token"
      else match findById
          (st.users ++ [⟨st.nextId, normalizeEmail e, bcryptHash p, now⟩])
          st.nextId with
        | none => mkErr 404 "User not found"
        | some user =>
          ⟨200, some true, none, some (toView user), none, none, none⟩) = _
    rw [if_neg (by decide : ¬ false = true), hfid]
    rfl

/-- C6 witness: instantiation on the empty store with a@test.com / secret1. -/
theorem C6_register_login_roundtrip_witness :
    ((∀ v ∈ (⟨[], 0⟩ : St).users, v.id < (⟨[], 0⟩ : St).nextId) ∧
     (serverRegister ⟨[], 0⟩ 0 false (some "a@test.com") (some "secret1")).1.status = 201) ∧
    (serverLogin ((serverRegister ⟨[], 0⟩ 0 false (some "a@test.com")
          (some "secret1")).2) 5 false (some "a@test.com") (some "secret1") =
      (⟨200, some true, some "Login successful",
          some ⟨0, normalizeEmail "a@test.com", 0⟩,
          some (jwtSign 0 (normalizeEmail "a@test.com") server_JWT_SECRET 5),
          none, none⟩,
        (serverRegister ⟨[], 0⟩ 0 false (some "a@test.com") (some "secret1")).2) ∧
     jwtVerify (jwtSign 0 (normalizeEmail "a@test.com") server_JWT_SECRET 5)
        server_JWT_SECRET 5 =
       some ⟨0, normalizeEmail "a@test.com", 5, 5 + sevenDaysSec⟩ ∧
     serverProfile ((serverRegister ⟨[], 0⟩ 0 false (some "a@test.com")
          (some "secret1")).2) 5 false
        (some (String.mk (("Bearer ").data ++
          jwtSign 0 (normalizeEmail "a@test.com") server_JWT_SECRET 5))) =
       ⟨200, some true, none, some ⟨0, normalizeEmail "a@test.com", 0⟩,
         none, none, none⟩) :=
  ⟨⟨by simp, by decide⟩,
    C6_register_login_roundtrip ⟨[], 0⟩ 0 5 "a@test.com" "secret1"
      (by simp) (by decide)⟩

/-- C9: with JWT_SECRET unset the two implementations hold different hardcoded
    signing secrets; a token issued by the controller's register/login
    (generateToken) is rejected 401 invalid by the server's profile handler, a
    token issued by the server's register/login is rejected 401 invalid by the
    controller's profile handler, while the controller's own profile accepts its
    token when the subject exists — so the two implementations are not
    equivalent. -/
theorem C9_two_implementations_inequivalent (uid : Nat) (email : String)
    (now now2 : Nat) (st : St) (u : User) (hu : findById st.users uid = some u) :
    controller_JWT_SECRET none ≠ server_JWT_SECRET ∧
    serverProfile st now2 false
        (some (String.mk (("Bearer ").data ++ generateToken none uid email now))) =
      mkErr 401 "Invalid or expired token" ∧
    controllerProfile none st now2 false
        (some (String.mk (("Bearer ").data ++
          jwtSign uid email server_JWT_SECRET now))) =
      mkErr 401 "Invalid or expired token" ∧
    controllerProfile none st now false
        (some (String.mk (("Bearer ").data ++ generateToken none uid email now))) =
      ⟨200, some true, none, some (toView u), none, none, none⟩ ∧
    controllerProfile none st now false
        (some (String.mk (("Bearer ").data ++ generateToken none uid email now))) ≠
      serverProfile st now false
        (some (String.mk (("Bearer ").data ++ generateToken none uid email now))) := by
  have hne : controller_JWT_SECRET none ≠ server_JWT_SECRET := by decide
  have hexp : now < now + sevenDaysSec := by
    have hval : sevenDaysSec = 604800 := rfl
    omega
  have hserver : ∀ tm, serverProfile st tm false
      (some (String.mk (("Bearer ").data ++ generateToken none uid email now))) =
      mkErr 401 "Invalid or expired token" := by
    intro tm
    rw [show generateToken none uid email now =
      tokenEncode ⟨uid, email, now, now + sevenDaysSec⟩ (controller_JWT_SECRET none)
      from rfl]
    rw [serverProfile_bearer st tm false _ (tokenEncode_ne_nil _ _)]
    rw [jwtVerify_wrong_secret _ _ _ _ hne]
  have hcontroller : controllerProfile none st now2 false
      (some (String.mk (("Bearer ").data ++
        jwtSign uid email server_JWT_SECRET now))) =
      mkErr 401 "Invalid or expired token" := by
    rw [show jwtSign uid email server_JWT_SECRET now =
      tokenEncode ⟨uid, email, now, now + sevenDaysSec⟩ server_JWT_SECRET from rfl]
    rw [controllerProfile_bearer none st now2 false _ (tokenEncode_ne_nil _ _)]
    rw [jwtVerify_wrong_secret _ _ _ _ (Ne.symm hne)]
  have haccept : controllerProfile none st now false
      (some (String.mk (("Bearer ").data ++ generateToken none uid email now))) =
      ⟨200, some true, none, some (toView u), none, none, none⟩ := by
    rw [show generateToken none uid email now =
      tokenEncode ⟨uid, email, now, now + sevenDaysSec⟩ (controller_JWT_SECRET none)
      from rfl]
    rw [controllerProfile_bearer none st now false _ (tokenEncode_ne_nil _ _)]
    rw [jwtVerify_ok _ _ _ hexp]
    show (if false = true then mkErr 401 "Invalid or expired token"
      else match findById st.users uid with
        | none => mkErr 404 "User not found"
        | some user =>
          ⟨200, some true, none, some (toView user), none, none, none⟩) = _
    rw [if_neg (by decide : ¬ false = true), hu]
  refine ⟨hne, hserver now2, hcontroller, haccept, ?_⟩
  rw [haccept, hserver now]
  intro hcon
  have h200 := congrArg Response.status hcon
  exact absurd (show (200 : Nat) = 401 from h200) (by decide)

/-- C9 witness: instantiation with one registered user a@test.com in the store. -/
theorem C9_two_implementations_inequivalent_witness :
    findById [⟨0, "a@test.com", bcryptHash "secret1", 0⟩] 0 =
      some ⟨0, "a@test.com", bcryptHash "secret1", 0⟩ ∧
    (controller_JWT_SECRET none ≠ server_JWT_SECRET ∧
     serverProfile ⟨[⟨0, "a@test.com", bcryptHash "secret1", 0⟩], 1⟩ 7 false
         (some (String.mk (("Bearer ").data ++ generateToken none 0 "a@test.com" 0))) =
       mkErr 401 "Invalid or expired token" ∧
     controllerProfile none ⟨[⟨0, "a@test.com", bcryptHash "secret1", 0⟩], 1⟩ 7 false
         (some (String.mk (("Bearer ").data ++
           jwtSign 0 "a@test.com" server_JWT_SECRET 0))) =
       mkErr 401 "Invalid or expired token" ∧
     controllerProfile none ⟨[⟨0, "a@test.com", bcryptHash "secret1", 0⟩], 1⟩ 0 false
         (some (String.mk (("Bearer ").data ++ generateToken none 0 "a@test.com" 0))) =
       ⟨200, some true, none,
         some (toView ⟨0, "a@test.com", bcryptHash "secret1", 0⟩), none, none, none⟩ ∧
     controllerProfile none ⟨[⟨0, "a@test.com", bcryptHash "secret1", 0⟩], 1⟩ 0 false
         (some (String.mk (("Bearer ").data ++ generateToken none 0 "a@test.com" 0))) ≠
       serverProfile ⟨[⟨0, "a@test.com", bcryptHash "secret1", 0⟩], 1⟩ 0 false
         (some (String.mk (("Bearer ").data ++ generateToken none 0 "a@test.com" 0)))) :=
  ⟨by decide,
    C9_two_implementations_inequivalent 0 "a@test.com" 0 7
      ⟨[⟨0, "a@test.com", bcryptHash "secret1", 0⟩], 1⟩
      ⟨0, "a@test.com", bcryptHash "secret1", 0⟩ (by decide)⟩

/-- C10 counterexample: the header consisting of exactly 'Bearer ' is neither
    absent nor empty, yet it strips to the empty token and receives the 401
    no-token response — refuting "only an absent or empty Authorization header
    yields the 401 no-token response". -/
theorem C10_bearer_extraction_cex :
    serverProfile ⟨[], 0⟩ 0 false (some "Bearer ") = noTokenResp ∧
    (some "Bearer " : Option String) ≠ none ∧ ("Bearer " : String) ≠ "" :=
  ⟨by decide, by decide, by decide⟩

/-- C10 amended: token extraction removes only the first occurrence of the
    literal 'Bearer ', so any space-free token in the Authorization header is
    treated identically with or without the 'Bearer ' prefix, and a valid token
    without the prefix succeeds; the 401 no-token response arises exactly for an
    absent header, an empty header, or the one further header that strips to the
    empty string — the header that is exactly 'Bearer '. -/
theorem C10_bearer_extraction (st : St) (now : Nat) (df : Bool) :
    (∀ t : List Char, (∀ x ∈ t, x ≠ ' ') →
      serverProfile st now df (some (String.mk t)) =
        serverProfile st now df (some (String.mk (("Bearer ").data ++ t)))) ∧
    (∀ q : JwtPayload, now < q.exp → ¬ df = true → ∀ u : User,
      findById st.users q.id = some u →
      serverProfile st now df (some (String.mk (tokenEncode q server_JWT_SECRET))) =
        ⟨200, some true, none, some (toView u), none, none, none⟩) ∧
    serverProfile st now df none = noTokenResp ∧
    serverProfile st now df (some "") = noTokenResp ∧
    serverProfile st now df (some "Bearer ") = noTokenResp ∧
    (∀ h : String, serverProfile st now df (some h) = noTokenResp →
      h = "" ∨ h = "Bearer ") := by
  refine ⟨?_, ?_, rfl, ?_, ?_, ?_⟩
  · intro t hns
    unfold serverProfile
    rw [Option.map_some', Option.map_some', stripBearer_no_space t hns,
      stripBearer_bearer]
  · intro q hexp hdf u hu
    unfold serverProfile
    rw [Option.map_some',
      stripBearer_no_space _ (tokenEncode_no_space q server_JWT_SECRET)]
    rw [profileCore_some _ _ _ _ _ _ (tokenEncode_ne_nil q server_JWT_SECRET)]
    rw [jwtVerify_ok q server_JWT_SECRET now hexp]
    show (if df = true then mkErr 401 "Invalid or expired token"
      else match findById st.users q.id with
        | none => mkErr 404 "User not found"
        | some user =>
          ⟨200, some true, none, some (toView user), none, none, none⟩) = _
    rw [if_neg hdf, hu]
  · unfold serverProfile profileCore
    rw [Option.map_some']
    have hsb : stripBearer "" = "" := rfl
    rw [hsb]
    rfl
  · unfold serverProfile profileCore
    rw [Option.map_some']
    have hsb : stripBearer "Bearer " = "" := by decide
    rw [hsb]
    rfl
  · intro h hres
    unfold serverProfile profileCore at hres
    rw [Option.map_some'] at hres
    by_cases hp : present (some (stripBearer h)) = true
    · rw [if_pos hp] at hres
      exfalso
      cases hver : jwtVerify ((some (stripBearer h)).getD "").data server_JWT_SECRET now with
      | none =>
        rw [hver] at hres
        have hres' : mkErr 401 "Invalid or expired token" = noTokenResp := hres
        exact absurd hres' (by decide)
      | some d =>
        rw [hver] at hres
        have hres' : (if df = true then mkErr 401 "Invalid or expired token"
          else match findById st.users d.id with
            | none => mkErr 404 "User not found"
            | some user =>
              ⟨200, some true, none, some (toView user), none, none, none⟩) =
            noTokenResp := hres
        by_cases hdf : df = true
        · rw [if_pos hdf] at hres'
          exact absurd hres' (by decide)
        · rw [if_neg hdf] at hres'
          cases hfid : findById st.users d.id with
          | none =>
            rw [hfid] at hres'
            have hres'' : mkErr 404 "User not found" = noTokenResp := hres'
            exact absurd hres'' (by decide)
          | some u =>
            rw [hfid] at hres'
            have hmsg := congrArg Response.message hres'
            exact absurd (show (none : Option String) = some "No token provided"
              from hmsg) (by decide)
    · have hsb : stripBearer h = "" := by
        simp only [present, bne_iff_ne, ne_eq, Decidable.not_not] at hp
        exact hp
      have hdata : replaceFirst ("Bearer ").data h.data = [] :=
        congrArg String.data hsb
      rcases replaceFirst_eq_nil ("Bearer ").data h.data hdata with hcase | hcase
      · exact Or.inl (congrArg String.mk hcase)
      · exact Or.inr (congrArg String.mk hcase)

/-- C10 witness: the valid-token clause of the amended claim instantiated — a
    profile request whose Authorization header is the bare token (no 'Bearer '
    prefix) succeeds for a stored user. -/
theorem C10_bearer_extraction_witness :
    ((0 : Nat) < (⟨0, "a@test.com", 0, sevenDaysSec⟩ : JwtPayload).exp ∧
     ¬ (false : Bool) = true ∧
     findById [⟨0, "a@test.com", bcryptHash "secret1", 0⟩] 0 =
       some ⟨0, "a@test.com", bcryptHash "secret1", 0⟩) ∧
    serverProfile ⟨[⟨0, "a@test.com", bcryptHash "secret1", 0⟩], 1⟩ 0 false
        (some (String.mk (tokenEncode ⟨0, "a@test.com", 0, sevenDaysSec⟩
          server_JWT_SECRET))) =
      ⟨200, some true, none,
        some (toView ⟨0, "a@test.com", bcryptHash "secret1", 0⟩), none, none, none⟩ :=
  ⟨⟨by decide, by decide, by decide⟩,
    (C10_bearer_extraction ⟨[⟨0, "a@test.com", bcryptHash "secret1", 0⟩], 1⟩ 0
        false).2.1 ⟨0, "a@test.com", 0, sevenDaysSec⟩ (by decide) (by decide)
      ⟨0, "a@test.com", bcryptHash "secret1", 0⟩ (by decide)⟩

end Splito
